import Mathlib

/-!
Shallow embedding of the Twilio-based outreach campaign engine.

The definitions below are translated from the JavaScript sources of the
repository, chiefly:

- `Twilio Caller/services/trackingService.js` (tracking store accessor:
  `calculateNextCallTime`, `checkExistingTrackingRecord`,
  `createTrackingRecord`, `resetTrackingRecord`, `getRecordsReadyForCalling`,
  `getRecordsReadyForEmail`, `updateCallTracking`, `updateEmailTracking`,
  `resetCallSchedule`), together with the active `OUTREACH_CONFIG` constants;
- the scheduled outreach service (`processScheduledCall`,
  `markRecordsInProgress`, `processScheduledEmail`);
- `Caller V2/services/validationService.js` (`parsePartnershipData`).

Timestamps are modelled as integers (milliseconds since an epoch that falls
on a day boundary); the JavaScript calendar mutations `setDate`/`setHours`
used by the production day/time schedule branch are modelled on an idealized
linear calendar (every day has exactly 86400000 ms, no month or DST
boundaries).  Database documents become a `TrackingRecord` structure holding
exactly the state fields the engine reads and writes; bookkeeping-only fields
such as `lastUpdatedAt`, `createdBy` or `originalData` are omitted.  MongoDB
queries become boolean filters over a single record: a query returns exactly
the set of stored records on which its filter evaluates to true.
-/

/-- Schedule entries from `OUTREACH_CONFIG.CALLS.SCHEDULE`: either a
minutes-after-start offset (testing cadence) or a day plus time-of-week slot
(production cadence). -/
inductive ScheduleItem where
  | minutes (m : Nat)
  | dayTime (day : Int) (hour : Int) (minute : Int)
deriving Repr, DecidableEq

/-- The active testing schedule configured in `OUTREACH_CONFIG.CALLS.SCHEDULE`:
call attempts at 0, 5, 10 and 15 minutes after campaign start. -/
def OUTREACH_SCHEDULE : List ScheduleItem :=
  [.minutes 0, .minutes 5, .minutes 10, .minutes 15]

/-- Contact information snapshot held on a tracking record. -/
structure ContactInfo where
  phoneNumbers : List String
  emails : List String
deriving Repr, DecidableEq

/-- The `call` sub-document of a tracking record. -/
structure CallState where
  overallAttemptNumber : Nat
  nextScheduleAt : Option Int
  lastCallAt : Option Int
  lastCallStatus : Option String
  lastCallDuration : Option Nat
  lastConversationId : Option String
  isActive : Bool
deriving Repr, DecidableEq

/-- The `email` sub-document of a tracking record. -/
structure EmailState where
  emailSentCount : Nat
  nextScheduleEmailAt : Option Int
  lastEmailAt : Option Int
  lastEmailStatus : Option String
  lastEmailSubject : Option String
  lastEmailError : Option String
deriving Repr, DecidableEq

/-- One entry of the append-only `callHistory` array. -/
structure HistoryEntry where
  attemptNumber : Nat
  cadenceStep : Nat
  callTime : Int
  status : String
  duration : Option Nat
  conversationId : Option String
  isPartneredWithInfinityClub : Option Bool
deriving Repr, DecidableEq

/-- A campaign tracking record as stored in the `call_campaigns` collection,
restricted to the state fields the progression engine reads and writes. -/
structure TrackingRecord where
  status : String
  currentCadenceStep : Nat
  isPartnered : Bool
  call : CallState
  email : EmailState
  contactInfo : ContactInfo
  campaignStartTime : Int
  callHistory : List HistoryEntry
deriving Repr, DecidableEq

/-- Result object handed to `updateCallTracking` after a call attempt
resolved (the `attemptNumber` field of the JavaScript object is ignored by
`updateCallTracking`, which recomputes it from the cadence step). -/
structure CallResult where
  status : String
  duration : Option Nat
  conversationId : Option String
  isPartneredWithInfinityClub : Option Bool
deriving Repr, DecidableEq

/-- Result object handed to `updateEmailTracking` after an email attempt. -/
structure EmailResult where
  success : Bool
  totalSent : Nat
  subject : Option String
  error : Option String
deriving Repr, DecidableEq

/-- Embedding of `trackingService.calculateNextCallTime`.  The JavaScript
function reads the schedule from the global config; here the schedule is an
explicit argument, instantiated with `OUTREACH_SCHEDULE` for the active
configuration.  `now` models the wall clock: the source falls back to
`new Date()` when `campaignStartTime` is null (the default argument). -/
def calculateNextCallTime (schedule : List ScheduleItem) (now : Int)
    (cadenceStep : Nat) (campaignStartTime : Option Int) : Option Int :=
  if h : cadenceStep < schedule.length then
    let baseTime := campaignStartTime.getD now
    match schedule.get ⟨cadenceStep, h⟩ with
    | .minutes m => some (baseTime + (m : Int) * 60 * 1000)
    | .dayTime day hour minute =>
      let t1 := baseTime + (day - 1) * 86400000
      let target := (t1 - t1 % 86400000) + hour * 3600000 + minute * 60000
      some (if target ≤ baseTime then target + 7 * 86400000 else target)
  else
    none

/-- The day-and-time slot a `dayTime` schedule entry denotes relative to a
base time, before the already-elapsed adjustment: shift the base by
`day - 1` days, then set the time of day to `hour:minute`. -/
def weeklySlot (baseTime day hour minute : Int) : Int :=
  let t1 := baseTime + (day - 1) * 86400000
  (t1 - t1 % 86400000) + hour * 3600000 + minute * 60000

/-- Statuses treated by `checkExistingTrackingRecord` as meaning the email
phase was already passed (`emailSentStatuses` in the source). -/
def emailSentStatuses : List String := ["emailed", "partner", "archived"]

/-- Statuses selected by the `getRecordsReadyForCalling` query. -/
def callReadyStatuses : List String := ["lead", "called1", "called2", "called3"]

/-- All status strings the engine ever writes into the `status` field. -/
def validStatuses : List String :=
  ["lead", "called1", "called2", "called3", "called4", "emailed", "partner", "archived"]

/-- The step-to-status map used by `updateCallTracking` (`statusMap` with the
fallback value "called4"). -/
def statusMapFor (currentStep : Nat) : String :=
  if currentStep = 0 then "called1"
  else if currentStep = 1 then "called2"
  else if currentStep = 2 then "called3"
  else "called4"

/-- Outcome of `checkExistingTrackingRecord` as consumed by
`addToCallTracking`. -/
inductive EnrollAction where
  | create
  | skip
  | reset
deriving Repr, DecidableEq

/-- Embedding of `trackingService.checkExistingTrackingRecord`, as a function
of the existing tracking record for the requested `recordId` (none when no
tracking record exists).  `addToCallTracking` creates a new record exactly in
the `create` case, resets the existing one in the `reset` case, and records a
skip reason in the `skip` case. -/
def checkExistingTrackingRecord : Option TrackingRecord → EnrollAction
  | none => .create
  | some existing =>
    if emailSentStatuses.contains existing.status || 4 ≤ existing.currentCadenceStep then
      .reset
    else
      .skip

/-- Embedding of `trackingService.createTrackingRecord`.  `now` is the wall
clock at creation (the campaign start time); contact-info population from the
main record is performed upstream and passed in as `contact`. -/
def createTrackingRecord (schedule : List ScheduleItem) (now : Int)
    (contact : ContactInfo) : TrackingRecord :=
  { status := "lead"
    currentCadenceStep := 0
    isPartnered := false
    call := {
      overallAttemptNumber := 0
      nextScheduleAt := calculateNextCallTime schedule now 0 (some now)
      lastCallAt := none
      lastCallStatus := none
      lastCallDuration := none
      lastConversationId := none
      isActive := false }
    email := {
      emailSentCount := 0
      nextScheduleEmailAt := none
      lastEmailAt := none
      lastEmailStatus := none
      lastEmailSubject := none
      lastEmailError := none }
    contactInfo := contact
    campaignStartTime := now
    callHistory := [] }

/-- Embedding of `trackingService.resetTrackingRecord`: overwrites the state
fields of the existing record with the same reset data that
`createTrackingRecord` uses (status lead, step 0, fresh campaign start, empty
history). -/
def resetTrackingRecord (schedule : List ScheduleItem) (now : Int)
    (contact : ContactInfo) (_existing : TrackingRecord) : TrackingRecord :=
  createTrackingRecord schedule now contact

/-- Filter of the `getRecordsReadyForCalling` query.  The query returns
exactly the stored records satisfying this predicate at wall-clock time
`now`: `call.nextScheduleAt` at most now (a null schedule time never
compares), `call.isActive` not true, and either `currentCadenceStep` below 4
(when no step is requested) or `currentCadenceStep` equal to the requested
step (the step filter replaces the below-4 bound in the source), and status
among the four call-phase statuses. -/
def readyForCalling (now : Int) (cadenceStep : Option Nat) (r : TrackingRecord) : Bool :=
  (match r.call.nextScheduleAt with
   | some t => t ≤ now
   | none => false)
  && !r.call.isActive
  && (match cadenceStep with
      | none => r.currentCadenceStep < 4
      | some s => r.currentCadenceStep == s)
  && callReadyStatuses.contains r.status

/-- Filter of the `getRecordsReadyForEmail` query: cadence step 4, status
"called4" (all calls completed), and no email sent yet. -/
def readyForEmail (r : TrackingRecord) : Bool :=
  r.currentCadenceStep == 4
  && r.status == "called4"
  && r.email.emailSentCount == 0

/-- Embedding of `markRecordsInProgress` (per record): sets the claim flag
`call.isActive` and pushes `call.nextScheduleAt` ten minutes past the current
wall clock to prevent immediate reprocessing. -/
def markRecordsInProgress (now : Int) (r : TrackingRecord) : TrackingRecord :=
  { r with call := { r.call with
      nextScheduleAt := some (now + 10 * 60 * 1000)
      isActive := true } }

/-- Embedding of `trackingService.resetCallSchedule`, used when call
initiation failed: retry in five minutes, clear the claim flag, and change
nothing else. -/
def resetCallSchedule (now : Int) (r : TrackingRecord) : TrackingRecord :=
  { r with call := { r.call with
      nextScheduleAt := some (now + 5 * 60 * 1000)
      isActive := false } }

/-- Embedding of `trackingService.updateCallTracking`: appends a history
entry, advances the cadence step (capped at the email step 4), recomputes the
next schedule time from the campaign start while call steps remain, clears
the claim flag, and short-circuits the status to "partner" when the call
result carries a definitive true partnership signal. -/
def updateCallTracking (schedule : List ScheduleItem) (now : Int)
    (r : TrackingRecord) (cr : CallResult) : TrackingRecord :=
  let currentStep := r.currentCadenceStep
  let nextStep := currentStep + 1
  let newStatus := statusMapFor currentStep
  let nextCallTime : Option Int :=
    if nextStep < 4 then
      calculateNextCallTime schedule now nextStep (some r.campaignStartTime)
    else
      none
  let entry : HistoryEntry := {
    attemptNumber := currentStep + 1
    cadenceStep := currentStep
    callTime := now
    status := cr.status
    duration := cr.duration
    conversationId := cr.conversationId
    isPartneredWithInfinityClub := cr.isPartneredWithInfinityClub }
  let base : TrackingRecord := { r with
    status := newStatus
    currentCadenceStep := if nextStep < 4 then nextStep else 4
    call := { r.call with
      overallAttemptNumber := r.call.overallAttemptNumber + 1
      nextScheduleAt := nextCallTime
      lastCallAt := some now
      lastCallStatus := some cr.status
      lastCallDuration := cr.duration
      lastConversationId := cr.conversationId
      isActive := false }
    callHistory := r.callHistory ++ [entry] }
  match cr.isPartneredWithInfinityClub with
  | none => base
  | some b =>
    if b then { base with isPartnered := b, status := "partner" }
    else { base with isPartnered := b }

/-- Embedding of `trackingService.updateEmailTracking`: on success the status
becomes "emailed", on failure it stays "called4"; the sent count becomes the
reported total (zero on failure), and the failure error is recorded. -/
def updateEmailTracking (now : Int) (r : TrackingRecord) (res : EmailResult) :
    TrackingRecord :=
  { r with
    status := if res.success then "emailed" else "called4"
    currentCadenceStep := 4
    email := { r.email with
      emailSentCount := res.totalSent
      lastEmailAt := some now
      lastEmailStatus := some (if res.success then "sent" else "failed")
      lastEmailSubject := res.subject
      lastEmailError :=
        if !res.success && res.error.isSome then res.error else r.email.lastEmailError } }

/-- How one call attempt resolves, as classified by the catch branch of
`processScheduledCall`: an initiation failure (the call never started), a
poll timeout or other execution failure surfacing as an exception, or a
completed call with its polled results. -/
inductive AttemptOutcome where
  | initiationFailure
  | pollTimeout
  | completed (callSuccessful : Bool) (duration : Nat)
      (conversationId : Option String) (partner : Option Bool)
deriving Repr, DecidableEq

/-- Embedding of the outcome handling of `processScheduledCall`: initiation
failures only reset the call schedule; timeouts record a synthesized failed
result; completed calls record their polled result. -/
def processCallOutcome (schedule : List ScheduleItem) (now : Int)
    (r : TrackingRecord) : AttemptOutcome → TrackingRecord
  | .initiationFailure => resetCallSchedule now r
  | .pollTimeout =>
    updateCallTracking schedule now r
      { status := "failed", duration := some 0, conversationId := none
        isPartneredWithInfinityClub := none }
  | .completed ok dur conv partner =>
    updateCallTracking schedule now r
      { status := if ok then "successful" else "failed", duration := some dur
        conversationId := conv, isPartneredWithInfinityClub := partner }

/-- Whether a string contains the character "@", as `includes` does in the
source email filters. -/
def hasAtSign (s : String) : Bool := s.data.contains '@'

/-- Embedding of `processScheduledEmail`.  `mainEmails` is the email field of
the source record used for the lazy refresh when the cached emails are empty,
`sendOk` tells which addresses the delivery provider accepts, and
`genSubject` is the generated subject line.  When no address is available
even after the refresh, the thrown error is caught and a failed result with
zero sent emails is recorded via `updateEmailTracking`. -/
def processScheduledEmail (now : Int) (r : TrackingRecord)
    (mainEmails : List String) (sendOk : String → Bool) (genSubject : String) :
    TrackingRecord :=
  let emails :=
    if r.contactInfo.emails.isEmpty then mainEmails.filter hasAtSign
    else r.contactInfo.emails
  if emails.isEmpty then
    updateEmailTracking now r
      { success := false, totalSent := 0
        subject := some "Email Send Failed"
        error := some "No email addresses available in contactInfo" }
  else
    let totalSent := (emails.filter sendOk).length
    let r1 := { r with contactInfo := { r.contactInfo with emails := emails } }
    updateEmailTracking now r1
      { success := decide (0 < totalSent), totalSent := totalSent
        subject := some genSubject, error := none }

/-- JavaScript values as they occur in the free-form conversation-analysis
payload handed to `parsePartnershipData`. -/
inductive JsVal where
  | vbool (b : Bool)
  | vstr (s : String)
  | vnum (n : Int)
  | vnull
  | vobj (fields : List (String × JsVal))

/-- Whether the character list `pat` occurs as a contiguous sublist of `s`,
modelling `String.includes`. -/
def charsContain (pat : List Char) : List Char → Bool
  | [] => pat.isEmpty
  | c :: cs => pat.isPrefixOf (c :: cs) || charsContain pat cs

/-- Whether the string `pat` occurs inside `s`, modelling `includes`. -/
def strContains (s pat : String) : Bool :=
  charsContain pat.data s.data

/-- ASCII lower-casing of a string, modelling `toLowerCase` character by
character. -/
def lowerString (s : String) : String :=
  String.mk (s.data.map Char.toLower)

/-- The exact key `parsePartnershipData` probes first. -/
def PARTNER_KEY : String := "isTheRestaurantPartneredWithInfinityClub"

/-- Method 3 of `parsePartnershipData`: scan the entries in order and take
the first whose lower-cased key mentions "partner" or "infinity" and whose
value is either a boolean or an object carrying a `value` field; entries with
a matching key but an unusable value are passed over without stopping the
scan. -/
def fuzzyScan : List (String × JsVal) → Option JsVal
  | [] => none
  | (k, v) :: rest =>
    if strContains (lowerString k) "partner" || strContains (lowerString k) "infinity" then
      match v with
      | .vbool b => some (.vbool b)
      | .vobj fields =>
        match List.lookup "value" fields with
        | some w => some w
        | none => fuzzyScan rest
      | _ => fuzzyScan rest
    else
      fuzzyScan rest

/-- Methods 1 to 3 of `parsePartnershipData`: the raw extracted value before
the final boolean normalization, or none when no method applies.  A direct
boolean wins; otherwise a direct object with a `value` field is unwrapped;
otherwise the fuzzy key scan over all entries runs (a null direct value is
falsy in the source and also falls through to the scan). -/
def extractPartnershipRaw (d : List (String × JsVal)) : Option JsVal :=
  match List.lookup PARTNER_KEY d with
  | some (.vbool b) => some (.vbool b)
  | some (.vobj fields) =>
    match List.lookup "value" fields with
    | some w => some w
    | none => fuzzyScan d
  | _ => fuzzyScan d

/-- The final validation step of `parsePartnershipData`: booleans pass
through, the lower-cased strings "true"/"yes" and "false"/"no" normalize to
true and false, and every other extracted value (or no extraction at all)
yields none, never false. -/
def normalizePartnership : Option JsVal → Option Bool
  | none => none
  | some (.vbool b) => some b
  | some (.vstr s) =>
    if lowerString s == "true" || lowerString s == "yes" then some true
    else if lowerString s == "false" || lowerString s == "no" then some false
    else none
  | some _ => none

/-- Embedding of `validationService.parsePartnershipData` over the
`data_collection_results` object, given as its ordered entry list. -/
def parsePartnershipData (d : List (String × JsVal)) : Option Bool :=
  normalizePartnership (extractPartnershipRaw d)

/-- Whether neither method 1 nor method 2 of `parsePartnershipData` applies
to the payload, so that extraction falls through to the fuzzy key scan. -/
def noDirectHit (d : List (String × JsVal)) : Bool :=
  match List.lookup PARTNER_KEY d with
  | some (.vbool _) => false
  | some (.vobj fields) => (List.lookup "value" fields).isNone
  | _ => true

/-- The status a call-phase status string pins the cadence step to, when it
does: lead means step 0, calledK means step K; the terminal statuses emailed,
partner and archived leave the step unconstrained. -/
def statusStep : String → Option Nat
  | "lead" => some 0
  | "called1" => some 1
  | "called2" => some 2
  | "called3" => some 3
  | "called4" => some 4
  | _ => none

/-- Consistency of a stored record as maintained by the engine: the status is
one the engine writes, call-phase statuses agree with the cadence step, and
the attempt counter moves in lockstep with the cadence step. -/
def recordWF (r : TrackingRecord) : Bool :=
  validStatuses.contains r.status
  && (match statusStep r.status with
      | some k => r.currentCadenceStep == k
      | none => true)
  && r.call.overallAttemptNumber == r.currentCadenceStep

/-- The spec-side readiness filter for calls, written from the words of the
specification contract: `call.nextAttemptAt` at most now, not claimed,
cadence step below 4, status outside the terminal set, and, when a step is
requested, the record at that step. -/
def specDueForCall (now : Int) (cadenceStep : Option Nat) (r : TrackingRecord) : Bool :=
  (match r.call.nextScheduleAt with
   | some t => t ≤ now
   | none => false)
  && !r.call.isActive
  && r.currentCadenceStep < 4
  && !emailSentStatuses.contains r.status
  && (match cadenceStep with
      | none => true
      | some s => r.currentCadenceStep == s)

/-- The spec-side readiness filter for emails, written from the words of the
specification contract: cadence step 4 (the email step), all call attempts
resolved (at least four attempts made and no terminal short-circuit), and no
email sent yet. -/
def specDueForEmail (r : TrackingRecord) : Bool :=
  r.currentCadenceStep == 4
  && decide (4 ≤ r.call.overallAttemptNumber)
  && !emailSentStatuses.contains r.status
  && r.email.emailSentCount == 0

/-- The history bookkeeping invariant of the data model: the history length
equals the overall attempt counter and each entry carries its own one-based
position as `attemptNumber`. -/
def callHistoryInv (r : TrackingRecord) : Prop :=
  r.callHistory.length = r.call.overallAttemptNumber
  ∧ ∀ i (h : i < r.callHistory.length), (r.callHistory[i]).attemptNumber = i + 1

/-- A fixed contact-info value used by concrete witnesses. -/
def sampleContact : ContactInfo :=
  { phoneNumbers := ["+441130000000"], emails := ["a@b.co"] }

/-- A concrete record shape used by witnesses and counterexamples: a record
as it looks after all four call attempts resolved without a partnership
signal, waiting for its email. -/
def sampleCalled4 : TrackingRecord :=
  { status := "called4"
    currentCadenceStep := 4
    isPartnered := false
    call := {
      overallAttemptNumber := 4
      nextScheduleAt := none
      lastCallAt := some 900000
      lastCallStatus := some "failed"
      lastCallDuration := some 0
      lastConversationId := none
      isActive := false }
    email := {
      emailSentCount := 0
      nextScheduleEmailAt := none
      lastEmailAt := none
      lastEmailStatus := none
      lastEmailSubject := none
      lastEmailError := none }
    contactInfo := { phoneNumbers := ["+441130000000"], emails := [] }
    campaignStartTime := 0
    callHistory := [
      { attemptNumber := 1, cadenceStep := 0, callTime := 0, status := "failed"
        duration := some 0, conversationId := none, isPartneredWithInfinityClub := none },
      { attemptNumber := 2, cadenceStep := 1, callTime := 300000, status := "failed"
        duration := some 0, conversationId := none, isPartneredWithInfinityClub := none },
      { attemptNumber := 3, cadenceStep := 2, callTime := 600000, status := "failed"
        duration := some 0, conversationId := none, isPartneredWithInfinityClub := none },
      { attemptNumber := 4, cadenceStep := 3, callTime := 900000, status := "failed"
        duration := some 0, conversationId := none, isPartneredWithInfinityClub := none }] }

theorem updateCallTracking_step (sched : List ScheduleItem) (now : Int)
    (r : TrackingRecord) (cr : CallResult) :
    (updateCallTracking sched now r cr).currentCadenceStep = min (r.currentCadenceStep + 1) 4 := by
  unfold updateCallTracking
  rcases cr.isPartneredWithInfinityClub with _ | b
  · simp
    split <;> omega
  · cases b <;> simp <;> (split <;> omega)

theorem updateCallTracking_history (sched : List ScheduleItem) (now : Int)
    (r : TrackingRecord) (cr : CallResult) :
    (updateCallTracking sched now r cr).callHistory = r.callHistory ++
      [{ attemptNumber := r.currentCadenceStep + 1
         cadenceStep := r.currentCadenceStep
         callTime := now
         status := cr.status
         duration := cr.duration
         conversationId := cr.conversationId
         isPartneredWithInfinityClub := cr.isPartneredWithInfinityClub }] := by
  unfold updateCallTracking
  rcases cr.isPartneredWithInfinityClub with _ | b
  · simp
  · cases b <;> simp

theorem updateCallTracking_attempts (sched : List ScheduleItem) (now : Int)
    (r : TrackingRecord) (cr : CallResult) :
    (updateCallTracking sched now r cr).call.overallAttemptNumber
      = r.call.overallAttemptNumber + 1 := by
  unfold updateCallTracking
  rcases cr.isPartneredWithInfinityClub with _ | b
  · simp
  · cases b <;> simp

theorem updateCallTracking_status (sched : List ScheduleItem) (now : Int)
    (r : TrackingRecord) (cr : CallResult) :
    (updateCallTracking sched now r cr).status =
      (if cr.isPartneredWithInfinityClub = some true then "partner"
       else statusMapFor r.currentCadenceStep) := by
  unfold updateCallTracking
  rcases cr.isPartneredWithInfinityClub with _ | b
  · simp
  · cases b <;> simp

theorem updateCallTracking_email (sched : List ScheduleItem) (now : Int)
    (r : TrackingRecord) (cr : CallResult) :
    (updateCallTracking sched now r cr).email = r.email := by
  unfold updateCallTracking
  rcases cr.isPartneredWithInfinityClub with _ | b
  · simp
  · cases b <;> simp

/-- Claim C1: for a record processed in a call sweep, an initiation failure
leaves the cadence step, the history, the attempt counter and the status
unchanged and only sets a five-minute retry delay (clearing the claim flag),
while a poll timeout or an executed-and-failed call advances the cadence
step by exactly one (capped at 4), increments the attempt counter and
appends a failed outcome to the history. -/
theorem c1_initiation_vs_execution_failure (sched : List ScheduleItem) (now : Int) (r : TrackingRecord)
    (dur : Nat) (conv : Option String) (partner : Option Bool) :
    ((processCallOutcome sched now r .initiationFailure).currentCadenceStep = r.currentCadenceStep
      ∧ (processCallOutcome sched now r .initiationFailure).callHistory = r.callHistory
      ∧ (processCallOutcome sched now r .initiationFailure).call.overallAttemptNumber
          = r.call.overallAttemptNumber
      ∧ (processCallOutcome sched now r .initiationFailure).status = r.status
      ∧ (processCallOutcome sched now r .initiationFailure).call.nextScheduleAt
          = some (now + 5 * 60 * 1000)
      ∧ (processCallOutcome sched now r .initiationFailure).call.isActive = false)
    ∧ ((processCallOutcome sched now r .pollTimeout).currentCadenceStep
          = min (r.currentCadenceStep + 1) 4
      ∧ (processCallOutcome sched now r .pollTimeout).call.overallAttemptNumber
          = r.call.overallAttemptNumber + 1
      ∧ ∃ e, (processCallOutcome sched now r .pollTimeout).callHistory = r.callHistory ++ [e]
          ∧ e.status = "failed" ∧ e.cadenceStep = r.currentCadenceStep
          ∧ e.attemptNumber = r.currentCadenceStep + 1)
    ∧ ((processCallOutcome sched now r (.completed false dur conv partner)).currentCadenceStep
          = min (r.currentCadenceStep + 1) 4
      ∧ (processCallOutcome sched now r (.completed false dur conv partner)).call.overallAttemptNumber
          = r.call.overallAttemptNumber + 1
      ∧ ∃ e, (processCallOutcome sched now r (.completed false dur conv partner)).callHistory
            = r.callHistory ++ [e]
          ∧ e.status = "failed" ∧ e.cadenceStep = r.currentCadenceStep
          ∧ e.attemptNumber = r.currentCadenceStep + 1) := by
  refine ⟨⟨?_, ?_, ?_, ?_, ?_, ?_⟩, ⟨?_, ?_, ?_⟩, ⟨?_, ?_, ?_⟩⟩ <;>
    simp [processCallOutcome, resetCallSchedule, updateCallTracking_step,
      updateCallTracking_attempts, updateCallTracking_history]

/-- Claim C8: with the active schedule, every step at or beyond 4 yields no
next call time; a minutes entry yields the campaign start time plus the
configured minute offset; and a day/time entry whose slot already elapsed
relative to the campaign start resolves to the same slot one week later. -/
theorem c8_schedule_computation :
    (∀ (now : Int) (cst : Option Int) (step : Nat), 4 ≤ step →
      calculateNextCallTime OUTREACH_SCHEDULE now step cst = none)
    ∧ (∀ (sched : List ScheduleItem) (now t : Int) (step : Nat) (m : Nat)
        (h : step < sched.length), sched.get ⟨step, h⟩ = .minutes m →
        calculateNextCallTime sched now step (some t) = some (t + (m : Int) * 60 * 1000))
    ∧ (∀ (sched : List ScheduleItem) (now t day hour minute : Int) (step : Nat)
        (h : step < sched.length), sched.get ⟨step, h⟩ = .dayTime day hour minute →
        weeklySlot t day hour minute ≤ t →
        calculateNextCallTime sched now step (some t)
          = some (weeklySlot t day hour minute + 7 * 86400000)) := by
  refine ⟨?_, ?_, ?_⟩
  · intro now cst step hstep
    unfold calculateNextCallTime
    rw [dif_neg]
    simp [OUTREACH_SCHEDULE]
    omega
  · intro sched now t step m h hget
    rw [List.get_eq_getElem] at hget
    unfold calculateNextCallTime
    rw [dif_pos h]
    simp [hget]
  · intro sched now t day hour minute step h hget hpast
    have hg : sched[step] = ScheduleItem.dayTime day hour minute := by
      simpa using hget
    unfold calculateNextCallTime
    rw [dif_pos h]
    simp only [List.get_eq_getElem, Fin.getElem_fin, Option.getD_some, hg]
    rw [if_pos]
    · simp [weeklySlot]
    · simpa [weeklySlot] using hpast

/-- Claim C9 counterexample: with a null campaign start time (the default
argument of the source function), `calculateNextCallTime` falls back to the
current wall clock, so the same (step, campaignStartTime) pair evaluated at
two different wall-clock instants yields two different results. -/
theorem c9_counterexample_clock_fallback :
    calculateNextCallTime OUTREACH_SCHEDULE 0 0 none
      ≠ calculateNextCallTime OUTREACH_SCHEDULE 60000 0 none := by decide

/-- Claim C9 as amended: whenever a non-null campaign start time is
supplied, `calculateNextCallTime` is independent of the wall clock, hence
deterministic in (step, campaignStartTime). -/
theorem c9_deterministic_given_start_time (sched : List ScheduleItem) (now1 now2 t : Int) (step : Nat) :
    calculateNextCallTime sched now1 step (some t)
      = calculateNextCallTime sched now2 step (some t) := by
  unfold calculateNextCallTime
  simp

theorem updateCallTracking_isPartnered (sched : List ScheduleItem) (now : Int)
    (r : TrackingRecord) (cr : CallResult) :
    (updateCallTracking sched now r cr).isPartnered
      = cr.isPartneredWithInfinityClub.getD r.isPartnered := by
  unfold updateCallTracking
  rcases cr.isPartneredWithInfinityClub with _ | b
  · simp
  · cases b <;> simp

/-- Claim C2 (code evidence): a record claimed by `markRecordsInProgress`
is excluded by the `readyForCalling` filter at every later wall-clock time,
including after the ten-minute grace window has elapsed, because the query
requires the claim flag to be false; so a claim left uncleared by a failed
state-advancement write never becomes selectable again, contradicting the
self-healing-lease behaviour the specification describes.  The concrete
conjuncts evaluate the code on a freshly created due record. -/
theorem c2_claimed_record_never_reselected :
    (∀ (now t : Int) (stepFilter : Option Nat) (r : TrackingRecord),
        readyForCalling t stepFilter (markRecordsInProgress now r) = false)
    ∧ readyForCalling 0 none (createTrackingRecord OUTREACH_SCHEDULE 0 sampleContact) = true
    ∧ (markRecordsInProgress 0 (createTrackingRecord OUTREACH_SCHEDULE 0 sampleContact)).call.nextScheduleAt
        = some 600000
    ∧ readyForCalling 600001 none
        (markRecordsInProgress 0 (createTrackingRecord OUTREACH_SCHEDULE 0 sampleContact)) = false := by
  refine ⟨?_, by decide, by decide, by decide⟩
  intro now t stepFilter r
  simp [readyForCalling, markRecordsInProgress]

/-- Claim C3 counterexample: a record that finished its four calls but has
not yet been emailed (status "called4", cadence step 4, zero emails sent) is
active in the sense of the claim (its status is outside the terminal set),
yet `checkExistingTrackingRecord` does not skip it: it resets it. -/
theorem c3_counterexample_called4_is_reset :
    emailSentStatuses.contains sampleCalled4.status = false
    ∧ checkExistingTrackingRecord (some sampleCalled4) ≠ EnrollAction.skip := by
  decide

/-- Claim C3 as amended: an enrollment request finding an existing tracking
record never creates a second record; it is skipped exactly when the
existing record has a status outside the email-sent set and a cadence step
below 4, and reset (back to status lead, step 0, empty history) exactly when
the status is in the email-sent set or the cadence step reached 4, even if
the email itself was not yet sent. -/
theorem c3_enrollment_skip_reset_rules :
    (∀ existing : Option TrackingRecord,
        checkExistingTrackingRecord existing = .create ↔ existing = none)
    ∧ (∀ r : TrackingRecord,
        checkExistingTrackingRecord (some r) = .skip ↔
          emailSentStatuses.contains r.status = false ∧ r.currentCadenceStep < 4)
    ∧ (∀ r : TrackingRecord,
        checkExistingTrackingRecord (some r) = .reset ↔
          (emailSentStatuses.contains r.status = true ∨ 4 ≤ r.currentCadenceStep))
    ∧ (∀ (sched : List ScheduleItem) (now : Int) (c : ContactInfo) (r : TrackingRecord),
        (resetTrackingRecord sched now c r).status = "lead"
        ∧ (resetTrackingRecord sched now c r).currentCadenceStep = 0
        ∧ (resetTrackingRecord sched now c r).callHistory = []
        ∧ (resetTrackingRecord sched now c r).campaignStartTime = now) := by
  refine ⟨?_, ?_, ?_, ?_⟩
  · rintro (_ | r)
    · simp [checkExistingTrackingRecord]
    · simp only [checkExistingTrackingRecord]
      split <;> simp
  · intro r
    simp only [checkExistingTrackingRecord]
    split <;> rename_i hcond
    · simp only [Bool.or_eq_true, decide_eq_true_eq] at hcond
      constructor
      · intro h
        exact absurd h (by decide)
      · rintro ⟨h1, h2⟩
        rcases hcond with hc | hc
        · exact absurd (h1.symm.trans hc) Bool.false_ne_true
        · exact absurd hc (by omega)
    · simp only [Bool.or_eq_true, decide_eq_true_eq, not_or] at hcond
      simp only [true_iff]
      exact ⟨Bool.eq_false_iff.mpr hcond.1, by omega⟩
  · intro r
    simp only [checkExistingTrackingRecord]
    split <;> rename_i hcond
    · simp only [Bool.or_eq_true, decide_eq_true_eq] at hcond
      simp only [true_iff]
      rcases hcond with hc | hc
      · exact Or.inl hc
      · exact Or.inr hc
    · simp only [Bool.or_eq_true, decide_eq_true_eq, not_or] at hcond
      constructor
      · intro h
        exact absurd h (by decide)
      · rintro (hc | hc)
        · rw [hc] at hcond
          exact absurd rfl hcond.1
        · exact absurd hc hcond.2
  · intro sched now c r
    refine ⟨rfl, rfl, rfl, rfl⟩

/-- Claim C6: when a call outcome at a step below 4 carries a definitive
true partnership signal, `updateCallTracking` sets the status to "partner"
and marks the record partnered, the cadence step still advances by one, and
any record with status "partner" is selected by no later call sweep (at any
time, for any step argument) and by no email sweep. -/
theorem c6_partnership_short_circuit (sched : List ScheduleItem) (now : Int) (r : TrackingRecord)
    (cr : CallResult) (hstep : r.currentCadenceStep < 4)
    (hsig : cr.isPartneredWithInfinityClub = some true) :
    (updateCallTracking sched now r cr).status = "partner"
    ∧ (updateCallTracking sched now r cr).isPartnered = true
    ∧ (updateCallTracking sched now r cr).currentCadenceStep = r.currentCadenceStep + 1
    ∧ (∀ rr : TrackingRecord, rr.status = "partner" →
        (∀ (t : Int) (stepFilter : Option Nat), readyForCalling t stepFilter rr = false)
        ∧ readyForEmail rr = false) := by
  refine ⟨?_, ?_, ?_, ?_⟩
  · rw [updateCallTracking_status, if_pos hsig]
  · rw [updateCallTracking_isPartnered, hsig]
    rfl
  · rw [updateCallTracking_step]
    omega
  · intro rr hrr
    constructor
    · intro t stepFilter
      simp [readyForCalling, hrr, callReadyStatuses]
    · simp [readyForEmail, hrr]

/-- Claim C10 counterexample: a record at the email step with no cached
email address and no address recoverable from the source record gets a
failed email result recorded, yet the resulting record still satisfies the
`readyForEmail` filter, so the next email sweep selects it again,
contradicting that it is never attempted again. -/
theorem c10_counterexample_no_address_reselected :
    readyForEmail sampleCalled4 = true
    ∧ (processScheduledEmail 0 sampleCalled4 [] (fun _ => false) "s").email.lastEmailStatus
        = some "failed"
    ∧ readyForEmail (processScheduledEmail 0 sampleCalled4 [] (fun _ => false) "s") = true := by
  refine ⟨rfl, rfl, rfl⟩

/-- Claim C10 as amended: when a record at the email step has no cached
email address and the source record yields none either, the engine records a
failed email result (status stays "called4", sent count stays 0, last email
status "failed") and the record remains selectable by every subsequent email
sweep: it is retried on each sweep rather than made terminal. -/
theorem c10_no_address_failure_recorded_and_retried (now : Int) (r : TrackingRecord) (mainEmails : List String)
    (sendOk : String → Bool) (subj : String)
    (hempty : r.contactInfo.emails = []) (hmain : mainEmails.filter hasAtSign = []) :
    (processScheduledEmail now r mainEmails sendOk subj).status = "called4"
    ∧ (processScheduledEmail now r mainEmails sendOk subj).email.emailSentCount = 0
    ∧ (processScheduledEmail now r mainEmails sendOk subj).email.lastEmailStatus = some "failed"
    ∧ (processScheduledEmail now r mainEmails sendOk subj).currentCadenceStep = 4
    ∧ readyForEmail (processScheduledEmail now r mainEmails sendOk subj) = true := by
  simp [processScheduledEmail, hempty, hmain, updateEmailTracking, readyForEmail]

/-- Claim C4: after creation, reset, retry reset, call advancement and email
result, the call history length equals the overall attempt counter and each
history entry carries its one-based position as its attempt number; call
advancement additionally keeps the attempt counter in lockstep with the
cadence step while call steps remain, and the email transition keeps it once
the counter reached 4. -/
theorem c4_history_matches_attempts :
    (∀ (sched : List ScheduleItem) (now : Int) (c : ContactInfo),
        callHistoryInv (createTrackingRecord sched now c))
    ∧ (∀ (sched : List ScheduleItem) (now : Int) (c : ContactInfo) (r : TrackingRecord),
        callHistoryInv (resetTrackingRecord sched now c r))
    ∧ (∀ (now : Int) (r : TrackingRecord), callHistoryInv r →
        callHistoryInv (resetCallSchedule now r))
    ∧ (∀ (sched : List ScheduleItem) (now : Int) (r : TrackingRecord) (cr : CallResult),
        callHistoryInv r →
        r.call.overallAttemptNumber = r.currentCadenceStep →
        callHistoryInv (updateCallTracking sched now r cr)
        ∧ (r.currentCadenceStep < 4 →
            (updateCallTracking sched now r cr).call.overallAttemptNumber
              = (updateCallTracking sched now r cr).currentCadenceStep))
    ∧ (∀ (now : Int) (r : TrackingRecord) (res : EmailResult), callHistoryInv r →
        callHistoryInv (updateEmailTracking now r res)
        ∧ (r.call.overallAttemptNumber = 4 →
            (updateEmailTracking now r res).call.overallAttemptNumber
              = (updateEmailTracking now r res).currentCadenceStep)) := by
  refine ⟨?_, ?_, ?_, ?_, ?_⟩
  · intro sched now c
    refine ⟨rfl, ?_⟩
    intro i h
    simp [createTrackingRecord] at h
  · intro sched now c r
    refine ⟨rfl, ?_⟩
    intro i h
    simp [resetTrackingRecord, createTrackingRecord] at h
  · intro now r hinv
    exact hinv
  · intro sched now r cr hinv hlock
    obtain ⟨hlen, hpos⟩ := hinv
    constructor
    · constructor
      · rw [updateCallTracking_history, updateCallTracking_attempts]
        simp [hlen]
      · rw [updateCallTracking_history]
        intro i h
        simp only [List.length_append, List.length_cons, List.length_nil] at h
        rcases Nat.lt_or_ge i r.callHistory.length with hi | hi
        · rw [List.getElem_append_left hi]
          exact hpos i hi
        · have hieq : i = r.callHistory.length := by omega
          rw [List.getElem_concat_length _ _ _ hieq]
          simp [hieq, hlen, hlock]
    · intro hlt
      rw [updateCallTracking_attempts, updateCallTracking_step]
      omega
  · intro now r res hinv
    obtain ⟨hlen, hpos⟩ := hinv
    exact ⟨⟨hlen, hpos⟩, fun h4 => by simp [updateEmailTracking, h4]⟩

/-- Claim C5: on every engine-consistent record (valid status, status
agreeing with the cadence step, attempt counter in lockstep), the
`getRecordsReadyForCalling` filter coincides with the specification filter
(due, unclaimed, step below 4, non-terminal status, optional step
restriction) for every step argument, and the `getRecordsReadyForEmail`
filter coincides with the specification filter (step 4, all four call
attempts resolved without terminal short-circuit, no email sent). -/
theorem c5_readiness_queries (now : Int) (r : TrackingRecord) (hwf : recordWF r = true) :
    (∀ stepFilter : Option Nat,
        readyForCalling now stepFilter r = specDueForCall now stepFilter r)
    ∧ readyForEmail r = specDueForEmail r := by
  simp only [recordWF, Bool.and_eq_true] at hwf
  obtain ⟨⟨hv, hs⟩, ha⟩ := hwf
  have ha2 : r.call.overallAttemptNumber = r.currentCadenceStep := by
    simpa using ha
  have hmem : r.status ∈ validStatuses := List.mem_of_elem_eq_true hv
  have hcases : r.status = "lead" ∨ r.status = "called1" ∨ r.status = "called2"
      ∨ r.status = "called3" ∨ r.status = "called4" ∨ r.status = "emailed"
      ∨ r.status = "partner" ∨ r.status = "archived" := by
    simpa [validStatuses] using hmem
  rcases hcases with h | h | h | h | h | h | h | h
  · rw [h] at hs
    simp only [statusStep] at hs
    have hstep : r.currentCadenceStep = 0 := by simpa using hs
    refine ⟨fun stepFilter => ?_, ?_⟩
    · cases stepFilter <;>
        simp [readyForCalling, specDueForCall, callReadyStatuses, emailSentStatuses, h, hstep]
    · simp [readyForEmail, specDueForEmail, emailSentStatuses, h, hstep, ha2]
  · rw [h] at hs
    simp only [statusStep] at hs
    have hstep : r.currentCadenceStep = 1 := by simpa using hs
    refine ⟨fun stepFilter => ?_, ?_⟩
    · cases stepFilter <;>
        simp [readyForCalling, specDueForCall, callReadyStatuses, emailSentStatuses, h, hstep]
    · simp [readyForEmail, specDueForEmail, emailSentStatuses, h, hstep, ha2]
  · rw [h] at hs
    simp only [statusStep] at hs
    have hstep : r.currentCadenceStep = 2 := by simpa using hs
    refine ⟨fun stepFilter => ?_, ?_⟩
    · cases stepFilter <;>
        simp [readyForCalling, specDueForCall, callReadyStatuses, emailSentStatuses, h, hstep]
    · simp [readyForEmail, specDueForEmail, emailSentStatuses, h, hstep, ha2]
  · rw [h] at hs
    simp only [statusStep] at hs
    have hstep : r.currentCadenceStep = 3 := by simpa using hs
    refine ⟨fun stepFilter => ?_, ?_⟩
    · cases stepFilter <;>
        simp [readyForCalling, specDueForCall, callReadyStatuses, emailSentStatuses, h, hstep]
    · simp [readyForEmail, specDueForEmail, emailSentStatuses, h, hstep, ha2]
  · rw [h] at hs
    simp only [statusStep] at hs
    have hstep : r.currentCadenceStep = 4 := by simpa using hs
    refine ⟨fun stepFilter => ?_, ?_⟩
    · cases stepFilter <;>
        simp [readyForCalling, specDueForCall, callReadyStatuses, emailSentStatuses, h, hstep]
    · simp [readyForEmail, specDueForEmail, emailSentStatuses, h, hstep, ha2]
  · refine ⟨fun stepFilter => ?_, ?_⟩
    · cases stepFilter <;>
        simp [readyForCalling, specDueForCall, callReadyStatuses, emailSentStatuses, h]
    · simp [readyForEmail, specDueForEmail, emailSentStatuses, h]
  · refine ⟨fun stepFilter => ?_, ?_⟩
    · cases stepFilter <;>
        simp [readyForCalling, specDueForCall, callReadyStatuses, emailSentStatuses, h]
    · simp [readyForEmail, specDueForEmail, emailSentStatuses, h]
  · refine ⟨fun stepFilter => ?_, ?_⟩
    · cases stepFilter <;>
        simp [readyForCalling, specDueForCall, callReadyStatuses, emailSentStatuses, h]
    · simp [readyForEmail, specDueForEmail, emailSentStatuses, h]

/-- Claim C7: partnership extraction accepts a direct boolean under the
expected key, a wrapped value object under the expected key, and a fuzzy
scan over partnership-related keys when neither direct form applies; the
final normalization maps extracted booleans through, maps strings whose
lower-casing is "true"/"yes" to true and "false"/"no" to false, and yields
none when nothing was extracted; a false verdict can only arise from an
extracted boolean false or an extracted definite-false string, never from an
unknown payload. -/
theorem c7_partnership_parsing :
    (∀ (d : List (String × JsVal)) (b : Bool),
        List.lookup PARTNER_KEY d = some (.vbool b) → parsePartnershipData d = some b)
    ∧ (∀ (d fields : List (String × JsVal)) (w : JsVal),
        List.lookup PARTNER_KEY d = some (.vobj fields) →
        List.lookup "value" fields = some w →
        parsePartnershipData d = normalizePartnership (some w))
    ∧ (∀ d : List (String × JsVal), noDirectHit d = true →
        parsePartnershipData d = normalizePartnership (fuzzyScan d))
    ∧ (∀ d : List (String × JsVal), noDirectHit d = true → fuzzyScan d = none →
        parsePartnershipData d = none)
    ∧ (∀ s : String, lowerString s = "true" ∨ lowerString s = "yes" →
        normalizePartnership (some (.vstr s)) = some true)
    ∧ (∀ s : String, lowerString s = "false" ∨ lowerString s = "no" →
        normalizePartnership (some (.vstr s)) = some false)
    ∧ (∀ d : List (String × JsVal), parsePartnershipData d = some false →
        extractPartnershipRaw d = some (.vbool false)
        ∨ ∃ s, extractPartnershipRaw d = some (.vstr s)
            ∧ (lowerString s = "false" ∨ lowerString s = "no")) := by
  have hfall : ∀ d : List (String × JsVal), noDirectHit d = true →
      extractPartnershipRaw d = fuzzyScan d := by
    intro d hnd
    unfold noDirectHit at hnd
    unfold extractPartnershipRaw
    rcases hL : List.lookup PARTNER_KEY d with _ | v
    · rfl
    · rw [hL] at hnd
      rcases v with b | s | n | _ | fields
      · exact absurd hnd (by simp)
      · rfl
      · rfl
      · rfl
      · have : List.lookup "value" fields = none := by
          simpa [Option.isNone_iff_eq_none] using hnd
        simp [this]
  refine ⟨?_, ?_, ?_, ?_, ?_, ?_, ?_⟩
  · intro d b h
    simp [parsePartnershipData, extractPartnershipRaw, h, normalizePartnership]
  · intro d fields w h1 h2
    simp [parsePartnershipData, extractPartnershipRaw, h1, h2]
  · intro d hnd
    rw [parsePartnershipData, hfall d hnd]
  · intro d hnd hfz
    rw [parsePartnershipData, hfall d hnd, hfz]
    rfl
  · intro s h
    rcases h with h | h <;> simp [normalizePartnership, h]
  · intro s h
    rcases h with h | h <;> simp [normalizePartnership, h]
  · intro d hp
    rw [parsePartnershipData] at hp
    rcases hE : extractPartnershipRaw d with _ | v
    · rw [hE] at hp
      simp [normalizePartnership] at hp
    · rw [hE] at hp
      rcases v with b | s | n | _ | fields
      · left
        simp [normalizePartnership] at hp
        rw [hp]
      · right
        refine ⟨s, rfl, ?_⟩
        by_cases h1 : (lowerString s == "true" || lowerString s == "yes") = true
        · simp [normalizePartnership, h1] at hp
        · by_cases h2 : (lowerString s == "false" || lowerString s == "no") = true
          · simpa using h2
          · simp [normalizePartnership, h1, h2] at hp
      · simp [normalizePartnership] at hp
      · simp [normalizePartnership] at hp
      · simp [normalizePartnership] at hp

/-- Witness for claim C8 at concrete inputs. -/
theorem c8_schedule_computation_witness :
    calculateNextCallTime OUTREACH_SCHEDULE 0 5 (some 0) = none
    ∧ calculateNextCallTime OUTREACH_SCHEDULE 0 1 (some 100) = some 300100
    ∧ calculateNextCallTime [.dayTime 1 0 0] 0 0 (some 1000) = some 604800000 := by
  refine ⟨c8_schedule_computation.1 0 (some 0) 5 (by decide), ?_, ?_⟩
  · exact (c8_schedule_computation.2.1 OUTREACH_SCHEDULE 0 100 1 5 (by decide) rfl).trans (by norm_num)
  · exact (c8_schedule_computation.2.2 [.dayTime 1 0 0] 0 1000 1 0 0 0 (by decide) rfl (by decide)).trans
      (by norm_num [weeklySlot])

/-- Witness for claim C4 at a concrete record and call result. -/
theorem c4_history_matches_attempts_witness :
    callHistoryInv (updateCallTracking OUTREACH_SCHEDULE 0
      (createTrackingRecord OUTREACH_SCHEDULE 0 sampleContact)
      { status := "failed", duration := some 0, conversationId := none
        isPartneredWithInfinityClub := none }) := by
  have hinv : callHistoryInv (createTrackingRecord OUTREACH_SCHEDULE 0 sampleContact) :=
    ⟨rfl, by intro i h; simp [createTrackingRecord] at h⟩
  exact (c4_history_matches_attempts.2.2.2.1 OUTREACH_SCHEDULE 0 _ _ hinv rfl).1

/-- Witness for claim C5 at a concrete consistent record. -/
theorem c5_readiness_queries_witness :
    readyForCalling 0 none sampleCalled4 = specDueForCall 0 none sampleCalled4
    ∧ readyForEmail sampleCalled4 = specDueForEmail sampleCalled4 := by
  have h := c5_readiness_queries 0 sampleCalled4 (by decide)
  exact ⟨h.1 none, h.2⟩

/-- Witness for claim C6 at a concrete record and partnered call result. -/
theorem c6_partnership_short_circuit_witness :
    (updateCallTracking OUTREACH_SCHEDULE 0
        (createTrackingRecord OUTREACH_SCHEDULE 0 sampleContact)
        { status := "successful", duration := some 30, conversationId := some "conv1"
          isPartneredWithInfinityClub := some true }).status = "partner"
    ∧ readyForEmail (updateCallTracking OUTREACH_SCHEDULE 0
        (createTrackingRecord OUTREACH_SCHEDULE 0 sampleContact)
        { status := "successful", duration := some 30, conversationId := some "conv1"
          isPartneredWithInfinityClub := some true }) = false := by
  have h := c6_partnership_short_circuit OUTREACH_SCHEDULE 0 (createTrackingRecord OUTREACH_SCHEDULE 0 sampleContact)
    { status := "successful", duration := some 30, conversationId := some "conv1"
      isPartneredWithInfinityClub := some true } (by decide) rfl
  exact ⟨h.1, (h.2.2.2 _ h.1).2⟩

/-- Witness for claim C7 at concrete payloads. -/
theorem c7_partnership_parsing_witness :
    parsePartnershipData [(PARTNER_KEY, .vbool true)] = some true
    ∧ parsePartnershipData [(PARTNER_KEY, .vobj [("value", .vstr "Yes")])] = some true := by
  refine ⟨c7_partnership_parsing.1 _ true rfl, ?_⟩
  have h := c7_partnership_parsing.2.1 [(PARTNER_KEY, .vobj [("value", .vstr "Yes")])]
    [("value", JsVal.vstr "Yes")] (.vstr "Yes") rfl rfl
  rw [h]
  exact c7_partnership_parsing.2.2.2.2.1 "Yes" (Or.inr (by decide))

/-- Witness for claim C10 as amended, at a concrete record. -/
theorem c10_no_address_failure_witness :
    readyForEmail (processScheduledEmail 5 sampleCalled4 ["nodomain"]
      (fun _ => true) "subject") = true := by
  exact (c10_no_address_failure_recorded_and_retried 5 sampleCalled4 ["nodomain"] (fun _ => true) "subject" rfl (by decide)).2.2.2.2
